import Mathlib

/-!
# WheelFix: the `WebCamCapture` component

A shallow embedding of `src/components/WebCamCapture.jsx`: the React state of
the component, its refs and the pending `setTimeout` callbacks form one record;
every handler of the component is a function on that record which also returns
the commands it issues to the browser (recorder commands, the POST, console
output).  Asynchronous handlers (`startWebcam`, `uploadVideo`) are cut at their
`await`: the part before it is one function, the part after it takes the outcome
of the awaited promise as an argument.
-/

namespace WheelFix

/-! ## Browser objects -/

/-- A camera stream as handed out by `getUserMedia`. -/
structure MediaStream where
  id : Nat
deriving DecidableEq

/-- A `Blob`: its bytes and its media type. -/
structure Blob where
  bytes : List Nat
  type : String
deriving DecidableEq

/-- The `size` property of a `Blob`: its number of bytes. -/
def Blob.size (b : Blob) : Nat := b.bytes.length

/-- The constructor `new Blob(parts, { type })`: the parts' bytes, concatenated
in the order of the array. -/
def Blob.ofParts (parts : List Blob) (type : String) : Blob :=
  { bytes := (parts.map Blob.bytes).flatten, type := type }

/-- The `<video>` element a ref points to; `srcObject` is its stream, if any. -/
structure VideoElement where
  srcObject : Option MediaStream
deriving DecidableEq

/-- A recorder made by `new MediaRecorder(stream)`. -/
structure MediaRecorder where
  stream : MediaStream
deriving DecidableEq

/-- A value of a `FormData` field. -/
inductive FormValue where
  | file (blob : Blob) (filename : String)
  | text (value : String)
deriving DecidableEq

/-- The request `axios.post(url, formData, { headers })`. -/
structure PostRequest where
  url : String
  formData : List (String × FormValue)
  contentType : String
deriving DecidableEq

/-- Commands a handler issues to the browser. -/
inductive Effect where
  | getUserMedia (facingMode : String) (audio : Bool)
  | recorderStart (r : MediaRecorder)
  | recorderStop (r : MediaRecorder)
  | post (req : PostRequest)
  | consoleError (text : String)
deriving DecidableEq

/-- Outcome of `navigator.mediaDevices.getUserMedia`. -/
inductive GetUserMedia where
  | resolved (stream : MediaStream)
  | rejected (message : String)
deriving DecidableEq

/-- Outcome of the awaited `axios.post`. -/
inductive PostOutcome where
  | resolved
  | rejected
deriving DecidableEq

/-- Outcome of `navigator.permissions.query({ name: "camera" })`: the promise
resolves with a state that is `"granted"` or something else, or it rejects. -/
inductive PermissionQuery where
  | granted
  | notGranted
  | failed
deriving DecidableEq

/-! ## Component state -/

/-- The `useState` cells and refs of `WebCamCapture` (lines 8-20), and the
delays, in milliseconds, still to run of the callbacks registered with
`setTimeout`.  `videoURL` holds the blob its object URL was created for. -/
structure State where
  webcamRef : Option VideoElement
  videoURL : Option Blob
  hasError : Bool
  permissionGranted : Bool
  recording : Bool
  recordedChunks : List Blob
  mediaRecorderRef : Option MediaRecorder
  tagValue : String
  tagDisabled : Bool
  errorMessage : String
  showModal : Bool
  showErrorModal : Bool
  timers : List Nat
deriving DecidableEq

/-- The state on mount: the initial values given to `useState` and `useRef`. -/
def State.init : State :=
  { webcamRef := none, videoURL := none, hasError := false, permissionGranted := false,
    recording := false, recordedChunks := [], mediaRecorderRef := none, tagValue := "",
    tagDisabled := false, errorMessage := "", showModal := false, showErrorModal := false,
    timers := [] }

/-- JavaScript `s.startsWith(p)`. -/
def startsWith (s p : String) : Bool := p.toList.isPrefixOf s.toList

/-- The test of line 52-53: `webcamRef.current` is set and its `srcObject` is a
`MediaStream`. -/
def streamValid (s : State) : Bool :=
  match s.webcamRef with
  | some v => v.srcObject.isSome
  | none => false

/-! ## Handlers -/

/-- `tagChange` (line 22). -/
def tagChange (value : String) (s : State) : State :=
  { s with tagValue := value }

/-- `sendErrorToUser` (line 26). -/
def sendErrorToUser (message : String) (s : State) : State :=
  { s with errorMessage := message }

/-- The request built by `uploadVideo` (lines 33-42). -/
def uploadRequest (s : State) : PostRequest :=
  let videoBlob := Blob.ofParts s.recordedChunks "video/webm"
  { url := "/api/v2/train",
    formData := [("video", FormValue.file videoBlob "recorded-video.webm"),
                 ("tagValue", FormValue.text s.tagValue)],
    contentType := "multipart/form-data" }

/-- `uploadVideo` up to its `await` (lines 31-38): unlocks the tag input and
sends the POST. -/
def uploadVideoBegin (s : State) : State × List Effect :=
  ({ s with tagDisabled := false }, [Effect.post (uploadRequest s)])

/-- `uploadVideo` after its `await` (lines 43-47), given how the POST ended. -/
def uploadVideoResume (post : PostOutcome) (s : State) : State × List Effect :=
  match post with
  | PostOutcome.resolved => ({ s with recordedChunks := [] }, [])
  | PostOutcome.rejected =>
    ({ sendErrorToUser "Failed to upload video." s with recordedChunks := [] },
     [Effect.consoleError "Error uploading video:"])

/-- `uploadVideo` (lines 30-48) run from call to completion with nothing in
between. -/
def uploadVideo (post : PostOutcome) (s : State) : State × List Effect :=
  let a := uploadVideoBegin s
  let b := uploadVideoResume post a.1
  (b.1, a.2 ++ b.2)

/-- The `ondataavailable` callback installed by `startRecording` (lines 69-77). -/
def ondataavailable (data : Blob) (s : State) : State :=
  if data.size > 0 then
    { s with recordedChunks := s.recordedChunks ++ [data],
             videoURL := some (Blob.ofParts [data] "video/webm") }
  else s

/-- `startRecording` (lines 50-87).  The callback given to `setTimeout` is
`stopRecording`; registering it adds a delay of 10000 ms to `timers`. -/
def startRecording (s : State) : State × List Effect :=
  match s.webcamRef with
  | some { srcObject := some stream } =>
    if s.tagValue = "" then
      (sendErrorToUser "Please input a tag for this video." s, [])
    else if !startsWith s.tagValue "ALY" && !startsWith s.tagValue "STL" then
      (sendErrorToUser "Tag must start with \"ALY\" or \"STL\"." s, [])
    else
      let mediaRecorder : MediaRecorder := { stream := stream }
      ({ s with tagDisabled := true, mediaRecorderRef := some mediaRecorder,
                recording := true, timers := s.timers ++ [10000] },
       [Effect.recorderStart mediaRecorder])
  | _ => (sendErrorToUser "Webcam reference is not set or stream is invalid." s, [])

/-- `stopRecording` (lines 89-94).  The guard is on the recorder ref, which
`startRecording` sets and nothing resets; the call `stop()` is taken to return
normally. -/
def stopRecording (s : State) : State × List Effect :=
  match s.mediaRecorderRef with
  | some r => ({ s with recording := false }, [Effect.recorderStop r])
  | none => (s, [])

/-- `startWebcam` up to its `await` (lines 96-101): asks for the stream. -/
def startWebcamBegin (s : State) : State × List Effect :=
  (s, [Effect.getUserMedia "environment" false])

/-- `startWebcam` after its `await` (lines 103-113), given how `getUserMedia`
ended. -/
def startWebcamResume (r : GetUserMedia) (s : State) : State × List Effect :=
  match r with
  | GetUserMedia.resolved stream =>
    ({ s with webcamRef := s.webcamRef.map (fun _ => { srcObject := some stream }),
              permissionGranted := true, hasError := false }, [])
  | GetUserMedia.rejected message =>
    ({ sendErrorToUser ("Error accessing webcam: " ++ message) s with hasError := true },
     [Effect.consoleError "Error accessing webcam:"])

/-- `handleGetWheelID` (line 116). -/
def handleGetWheelID (s : State) : State × List Effect :=
  startWebcamBegin s

/-- `handleTrainWheel` (line 120). -/
def handleTrainWheel (s : State) : State × List Effect :=
  let a := startWebcamBegin s
  ({ a.1 with showModal := true }, a.2)

/-- `closeModal` (line 125). -/
def closeModal (s : State) : State :=
  { s with showModal := false, errorMessage := "" }

/-- `closeErrorModal` (line 130). -/
def closeErrorModal (s : State) : State :=
  { s with showErrorModal := false, errorMessage := "" }

/-- The mount effect (lines 135-151) once the permission query has ended. -/
def permissionEffect (r : PermissionQuery) (s : State) : State × List Effect :=
  match r with
  | PermissionQuery.granted => ({ s with permissionGranted := true }, [])
  | PermissionQuery.notGranted => ({ s with hasError := true }, [])
  | PermissionQuery.failed =>
    ({ s with hasError := true }, [Effect.consoleError "Error checking camera permissions:"])

/-- The effect on `showModal` and `errorMessage` (lines 153-157). -/
def errorModalEffect (s : State) : State :=
  if s.errorMessage ≠ "" ∧ s.showModal = true then { s with showErrorModal := true } else s

/-- React attaches a freshly mounted `<video ref={webcamRef}>` (lines 245, 281). -/
def videoMounted (s : State) : State :=
  { s with webcamRef := some { srcObject := none } }

/-- React detaches the ref when the `<video>` element is unmounted. -/
def videoUnmounted (s : State) : State :=
  { s with webcamRef := none }

/-- Let `dt` milliseconds pass: every registered timeout whose delay has run out
calls its callback, `stopRecording` (lines 81-83), as soon as the delay is over;
the others keep what is left of their delay.  No timeout is ever removed
otherwise: the component never calls `clearTimeout`. -/
def elapse (dt : Nat) (s : State) : State × List Effect :=
  let due := s.timers.filter (fun t => t ≤ dt)
  let rest := (s.timers.filter (fun t => dt < t)).map (fun t => t - dt)
  due.foldl (fun acc _ => let r := stopRecording acc.1; (r.1, acc.2 ++ r.2))
    ({ s with timers := rest }, [])

/-! ## Events and runs -/

/-- What can happen to the component: a handler is called, a promise settles, a
recorder delivers data, React mounts an element or runs an effect, time passes.
Settlements, data events, mounts and effects are not tied to what was requested
before, so the runs below include every run of the real component. -/
inductive Event where
  | tagChange (value : String)
  | sendErrorToUser (message : String)
  | uploadVideo
  | uploadSettled (post : PostOutcome)
  | startRecording
  | stopRecording
  | dataavailable (data : Blob)
  | handleGetWheelID
  | handleTrainWheel
  | webcamSettled (r : GetUserMedia)
  | closeModal
  | closeErrorModal
  | permissionSettled (r : PermissionQuery)
  | errorModalEffect
  | videoMounted
  | videoUnmounted
  | elapse (dt : Nat)
deriving DecidableEq

/-- The state after an event. -/
def step (e : Event) (s : State) : State :=
  match e with
  | Event.tagChange v => tagChange v s
  | Event.sendErrorToUser m => sendErrorToUser m s
  | Event.uploadVideo => (uploadVideoBegin s).1
  | Event.uploadSettled p => (uploadVideoResume p s).1
  | Event.startRecording => (startRecording s).1
  | Event.stopRecording => (stopRecording s).1
  | Event.dataavailable d => ondataavailable d s
  | Event.handleGetWheelID => (handleGetWheelID s).1
  | Event.handleTrainWheel => (handleTrainWheel s).1
  | Event.webcamSettled r => (startWebcamResume r s).1
  | Event.closeModal => closeModal s
  | Event.closeErrorModal => closeErrorModal s
  | Event.permissionSettled r => (permissionEffect r s).1
  | Event.errorModalEffect => errorModalEffect s
  | Event.videoMounted => videoMounted s
  | Event.videoUnmounted => videoUnmounted s
  | Event.elapse dt => (elapse dt s).1

/-- The state after a sequence of events, oldest first. -/
def run (es : List Event) (s : State) : State :=
  es.foldl (fun acc e => step e acc) s

/-- What the rendered markup lets happen (lines 159-290).  With `hasError` only
the two buttons calling `startWebcam` are rendered; otherwise the training
dialog, rendered while `showModal`, holds the tag input (disabled by
`tagDisabled`), one of the start and stop buttons (chosen by `recording`) and,
while `videoURL` is set, the upload button; the error dialog is rendered while
`showErrorModal`.  Events that are not clicks are not restricted. -/
def uiAllows (e : Event) (s : State) : Bool :=
  match e with
  | Event.tagChange _ => !s.hasError && s.showModal && !s.tagDisabled
  | Event.startRecording => !s.hasError && s.showModal && !s.recording
  | Event.stopRecording => !s.hasError && s.showModal && s.recording
  | Event.uploadVideo => !s.hasError && s.showModal && s.videoURL.isSome
  | Event.handleTrainWheel => !s.hasError
  | Event.closeModal => !s.hasError && s.showModal
  | Event.closeErrorModal => !s.hasError && s.showErrorModal
  | _ => true

/-- Run a sequence of events, each of which must be allowed by `allowed` in the
state it meets; `none` if one is not. -/
def runGuarded (allowed : Event → State → Bool) : List Event → State → Option State
  | [], s => some s
  | e :: es, s => if allowed e s then runGuarded allowed es (step e s) else none

/-- The tag passes the checks of `startRecording` (lines 55-58). -/
def tagValid (tag : String) : Bool :=
  tag ≠ "" && (startsWith tag "ALY" || startsWith tag "STL")

/-- Opening the training dialog: "Train Wheel" is clicked, React mounts the
dialog's `<video>` element, `getUserMedia` resolves, and `tag` is typed into the
tag input. -/
def openTrace (tag : String) : List Event :=
  [Event.handleTrainWheel, Event.videoMounted,
   Event.webcamSettled (GetUserMedia.resolved { id := 1 }), Event.tagChange tag]

/-- The component after `openTrace tag`, from the initial state. -/
def readyState (tag : String) : State :=
  run (openTrace tag) State.init

/-- The markup's rules and one more: `uploadVideo` is not called while
`recording` is true. -/
def uiAllowsUploadIdle (e : Event) (s : State) : Bool :=
  uiAllows e s && !(decide (e = Event.uploadVideo) && s.recording)

/-- Every event is allowed, except `closeModal` while the error dialog is shown. -/
def closeModalBelowError (e : Event) (s : State) : Bool :=
  !(decide (e = Event.closeModal) && s.showErrorModal)

/-- While recording, the tag is locked and passes the checks of `startRecording`. -/
def recordingLocked (s : State) : Prop :=
  s.recording = true → s.tagDisabled = true ∧ tagValid s.tagValue = true

/-- A set `videoURL` comes with a chunk in `recordedChunks`. -/
def urlHasChunk (s : State) : Prop :=
  s.videoURL.isSome = true → s.recordedChunks ≠ []

/-- The error dialog is shown only over the training dialog. -/
def errorOverTraining (s : State) : Prop :=
  s.showErrorModal = true → s.showModal = true

instance : DecidablePred recordingLocked := fun s => by
  unfold recordingLocked
  infer_instance

instance : DecidablePred urlHasChunk := fun s => by
  unfold urlHasChunk
  infer_instance

instance : DecidablePred errorOverTraining := fun s => by
  unfold errorOverTraining
  infer_instance

/-- A chunk of two bytes, as a recorder delivers it. -/
def sampleChunk : Blob := { bytes := [26, 69], type := "video/webm" }

/-! ## Helper lemmas -/

theorem ondataavailable_recordedChunks (d : Blob) (s : State) :
    (ondataavailable d s).recordedChunks
      = s.recordedChunks ++ (if 0 < d.size then [d] else []) := by
  unfold ondataavailable
  by_cases h : 0 < d.size <;> simp [h]

theorem ondataavailable_tagValue (d : Blob) (s : State) :
    (ondataavailable d s).tagValue = s.tagValue := by
  unfold ondataavailable
  by_cases h : 0 < d.size <;> simp [h]

theorem run_cons (e : Event) (es : List Event) (s : State) :
    run (e :: es) s = run es (step e s) := rfl

theorem run_dataavailable (ds : List Blob) (s : State) :
    (run (ds.map Event.dataavailable) s).recordedChunks
        = s.recordedChunks ++ ds.filter (fun d => decide (0 < d.size)) ∧
      (run (ds.map Event.dataavailable) s).tagValue = s.tagValue := by
  induction ds generalizing s with
  | nil => simp [run]
  | cons d ds ih =>
    rw [List.map_cons, run_cons]
    obtain ⟨h1, h2⟩ := ih (step (Event.dataavailable d) s)
    rw [h1, h2]
    simp only [step, ondataavailable_recordedChunks, ondataavailable_tagValue]
    by_cases h : 0 < d.size <;> simp [h, List.filter_cons]

theorem runGuarded_eq_run (allowed : Event → State → Bool) :
    ∀ (es : List Event) (s t : State), runGuarded allowed es s = some t → t = run es s := by
  intro es
  induction es with
  | nil =>
    intro s t h
    simp [runGuarded] at h
    simp [run, h]
  | cons e es ih =>
    intro s t h
    by_cases ha : allowed e s = true
    · simp only [runGuarded, ha, if_true] at h
      rw [run_cons]
      exact ih _ _ h
    · simp [runGuarded, ha] at h

theorem runGuarded_invariant (allowed : Event → State → Bool) (P : State → Prop)
    (hstep : ∀ e s, allowed e s = true → P s → P (step e s)) :
    ∀ (es : List Event) (s t : State), P s → runGuarded allowed es s = some t → P t := by
  intro es
  induction es with
  | nil =>
    intro s t hP h
    simp [runGuarded] at h
    exact h ▸ hP
  | cons e es ih =>
    intro s t hP h
    by_cases ha : allowed e s = true
    · simp only [runGuarded, ha, if_true] at h
      exact ih _ _ (hstep e s ha hP) h
    · simp [runGuarded, ha] at h

theorem run_invariant (ok : Event → Prop) (P : State → Prop)
    (hstep : ∀ e s, ok e → P s → P (step e s)) :
    ∀ (es : List Event) (s : State), (∀ e ∈ es, ok e) → P s → P (run es s) := by
  intro es
  induction es with
  | nil =>
    intro s _ hP
    exact hP
  | cons e es ih =>
    intro s hall hP
    rw [run_cons]
    exact ih _ (fun x hx => hall x (List.mem_cons_of_mem _ hx))
      (hstep e s (hall e (List.mem_cons_self _ _)) hP)

theorem stopRecording_state (s : State) :
    (stopRecording s).1 = { s with recording := (s.recording && s.mediaRecorderRef.isNone) } := by
  obtain ⟨ref, url, he, pg, rec, chunks, mr, tag, td, em, sm, sem, tm⟩ := s
  cases mr <;> simp [stopRecording]

/-- A timer callback is `stopRecording`: running any number of them changes at
most the `recording` flag, and never sets it. -/
theorem stopRecording_fold (l : List Nat) :
    ∀ acc : State × List Effect,
      ∃ b, (l.foldl (fun acc _ => ((stopRecording acc.1).1, acc.2 ++ (stopRecording acc.1).2))
              acc).1 = { acc.1 with recording := b } ∧ (b = true → acc.1.recording = true) := by
  induction l with
  | nil =>
    intro acc
    exact ⟨acc.1.recording, rfl, fun h => h⟩
  | cons x l ih =>
    intro acc
    obtain ⟨b, hb, hb2⟩ := ih ((stopRecording acc.1).1, acc.2 ++ (stopRecording acc.1).2)
    refine ⟨b, ?_, ?_⟩
    · rw [List.foldl_cons, hb]
      simp only [stopRecording_state]
    · intro h
      have h3 := hb2 h
      simp only [stopRecording_state, Bool.and_eq_true] at h3
      exact h3.1

theorem elapse_state (dt : Nat) (s : State) :
    ∃ b, (elapse dt s).1
        = { s with recording := b,
                   timers := (s.timers.filter (fun t => dt < t)).map (fun t => t - dt) } ∧
      (b = true → s.recording = true) := by
  obtain ⟨b, hb, hb2⟩ := stopRecording_fold (s.timers.filter (fun t => t ≤ dt))
    ({ s with timers := (s.timers.filter (fun t => dt < t)).map (fun t => t - dt) }, [])
  exact ⟨b, hb, hb2⟩

theorem startRecording_state (s : State) :
    (∃ m, (startRecording s).1 = sendErrorToUser m s) ∨
    (tagValid s.tagValue = true ∧ ∃ r,
      (startRecording s).1 = { s with tagDisabled := true, mediaRecorderRef := some r,
                                      recording := true, timers := s.timers ++ [10000] }) := by
  unfold startRecording
  rcases hw : s.webcamRef with _ | ⟨_ | stream⟩
  · exact Or.inl ⟨_, rfl⟩
  · exact Or.inl ⟨_, rfl⟩
  · by_cases h1 : s.tagValue = ""
    · simp only [h1, if_true]
      exact Or.inl ⟨_, rfl⟩
    · by_cases h2 : (!startsWith s.tagValue "ALY" && !startsWith s.tagValue "STL") = true
      · simp only [h1, h2, if_true, if_false]
        exact Or.inl ⟨_, rfl⟩
      · simp only [h1, h2, if_false]
        refine Or.inr ⟨?_, _, rfl⟩
        simp only [tagValid, ne_eq, h1, not_false_eq_true, decide_True, Bool.true_and]
        revert h2
        cases startsWith s.tagValue "ALY" <;> cases startsWith s.tagValue "STL" <;> simp

/-- Every event other than the call of `uploadVideo` keeps a locked tag locked. -/
theorem step_keeps_lock (e : Event) (s : State) (he : e ≠ Event.uploadVideo)
    (h : s.tagDisabled = true) : (step e s).tagDisabled = true := by
  cases e with
  | uploadVideo => exact absurd rfl he
  | startRecording =>
    rcases startRecording_state s with ⟨m, hm⟩ | ⟨_, r, hr⟩
    · simp [step, hm, sendErrorToUser, h]
    · simp [step, hr]
  | stopRecording =>
    simp only [step, stopRecording]
    cases s.mediaRecorderRef <;> simp [h]
  | elapse dt =>
    obtain ⟨b, hb, _⟩ := elapse_state dt s
    simp [step, hb, h]
  | uploadSettled p => cases p <;> simp [step, uploadVideoResume, sendErrorToUser, h]
  | webcamSettled r => cases r <;> simp [step, startWebcamResume, sendErrorToUser, h]
  | permissionSettled r => cases r <;> simp [step, permissionEffect, h]
  | dataavailable d =>
    simp only [step, ondataavailable]
    split <;> simp [h]
  | errorModalEffect =>
    simp only [step, errorModalEffect]
    split <;> simp [h]
  | tagChange v => simp [step, tagChange, h]
  | sendErrorToUser m => simp [step, sendErrorToUser, h]
  | handleGetWheelID => simp [step, handleGetWheelID, startWebcamBegin, h]
  | handleTrainWheel => simp [step, handleTrainWheel, startWebcamBegin, h]
  | closeModal => simp [step, closeModal, h]
  | closeErrorModal => simp [step, closeErrorModal, h]
  | videoMounted => simp [step, videoMounted, h]
  | videoUnmounted => simp [step, videoUnmounted, h]

theorem startRecording_ok (s : State) (hstream : streamValid s = true)
    (htag : tagValid s.tagValue = true) :
    ∃ stream, startRecording s
      = ({ s with tagDisabled := true, mediaRecorderRef := some { stream := stream },
                  recording := true, timers := s.timers ++ [10000] },
         [Effect.recorderStart { stream := stream }]) := by
  obtain ⟨ref, url, he, pg, rec, chunks, mr, tag, td, em, sm, sem, tm⟩ := s
  rcases ref with _ | ⟨_ | stream⟩
  · simp [streamValid] at hstream
  · simp [streamValid] at hstream
  · refine ⟨stream, ?_⟩
    simp only [tagValid, ne_eq, Bool.and_eq_true, decide_eq_true_eq, Bool.or_eq_true] at htag
    obtain ⟨h1, h2⟩ := htag
    rcases h2 with h2 | h2 <;> simp [startRecording, h1, h2]

theorem step_keeps_recordingLocked (e : Event) (s : State)
    (ha : uiAllowsUploadIdle e s = true) (h : recordingLocked s) :
    recordingLocked (step e s) := by
  unfold recordingLocked at h ⊢
  cases e with
  | tagChange v =>
    simp only [uiAllowsUploadIdle, uiAllows, Bool.and_eq_true, Bool.not_eq_true'] at ha
    intro hr
    have := (h hr).1
    simp [this] at ha
  | uploadVideo =>
    simp only [uiAllowsUploadIdle, Bool.and_eq_true, Bool.not_eq_true', decide_True,
      Bool.true_and] at ha
    intro hr
    simp [step, uploadVideoBegin, ha.2] at hr
  | startRecording =>
    rcases startRecording_state s with ⟨m, hm⟩ | ⟨hv, r, hr⟩
    · simpa [step, hm, sendErrorToUser] using h
    · intro _
      simp [step, hr, hv]
  | stopRecording =>
    simp only [step, stopRecording_state]
    intro hr
    simp only [Bool.and_eq_true] at hr
    exact h hr.1
  | elapse dt =>
    obtain ⟨b, hb, hb2⟩ := elapse_state dt s
    simp only [step, hb]
    intro hr
    exact h (hb2 hr)
  | uploadSettled p => cases p <;> simpa [step, uploadVideoResume, sendErrorToUser] using h
  | webcamSettled r => cases r <;> simpa [step, startWebcamResume, sendErrorToUser] using h
  | permissionSettled r => cases r <;> simpa [step, permissionEffect] using h
  | dataavailable d =>
    simp only [step, ondataavailable]
    split
    · simpa using h
    · exact h
  | errorModalEffect =>
    simp only [step, errorModalEffect]
    split
    · simpa using h
    · exact h
  | sendErrorToUser m => simpa [step, sendErrorToUser] using h
  | handleGetWheelID => simpa [step, handleGetWheelID, startWebcamBegin] using h
  | handleTrainWheel => simpa [step, handleTrainWheel, startWebcamBegin] using h
  | closeModal => simpa [step, closeModal] using h
  | closeErrorModal => simpa [step, closeErrorModal] using h
  | videoMounted => simpa [step, videoMounted] using h
  | videoUnmounted => simpa [step, videoUnmounted] using h

/-- Only a data event of positive size changes `videoURL`. -/
theorem step_videoURL (e : Event) (s : State) :
    (step e s).videoURL = s.videoURL ∨ ∃ d, e = Event.dataavailable d ∧ 0 < d.size := by
  cases e with
  | dataavailable d =>
    by_cases hd : 0 < d.size
    · exact Or.inr ⟨d, rfl, hd⟩
    · exact Or.inl (by simp [step, ondataavailable, hd])
  | startRecording =>
    rcases startRecording_state s with ⟨m, hm⟩ | ⟨_, r, hr⟩
    · exact Or.inl (by simp [step, hm, sendErrorToUser])
    · exact Or.inl (by simp [step, hr])
  | stopRecording => exact Or.inl (by simp [step, stopRecording_state])
  | elapse dt =>
    obtain ⟨b, hb, _⟩ := elapse_state dt s
    exact Or.inl (by simp [step, hb])
  | uploadSettled p =>
    exact Or.inl (by cases p <;> simp [step, uploadVideoResume, sendErrorToUser])
  | webcamSettled r =>
    exact Or.inl (by cases r <;> simp [step, startWebcamResume, sendErrorToUser])
  | permissionSettled r => exact Or.inl (by cases r <;> simp [step, permissionEffect])
  | errorModalEffect =>
    refine Or.inl ?_
    simp only [step, errorModalEffect]
    split <;> rfl
  | tagChange v => exact Or.inl rfl
  | sendErrorToUser m => exact Or.inl rfl
  | uploadVideo => exact Or.inl rfl
  | handleGetWheelID => exact Or.inl rfl
  | handleTrainWheel => exact Or.inl rfl
  | closeModal => exact Or.inl rfl
  | closeErrorModal => exact Or.inl rfl
  | videoMounted => exact Or.inl rfl
  | videoUnmounted => exact Or.inl rfl

/-- Only a data event changes `recordedChunks`, by appending, or the end of an
upload, by emptying. -/
theorem step_recordedChunks (e : Event) (s : State) (he : ∀ p, e ≠ Event.uploadSettled p) :
    (step e s).recordedChunks = s.recordedChunks ∨
      ∃ d, e = Event.dataavailable d ∧ 0 < d.size ∧
        (step e s).recordedChunks = s.recordedChunks ++ [d] := by
  cases e with
  | dataavailable d =>
    by_cases hd : 0 < d.size
    · exact Or.inr ⟨d, rfl, hd, by simp [step, ondataavailable, hd]⟩
    · exact Or.inl (by simp [step, ondataavailable, hd])
  | uploadSettled p => exact absurd rfl (he p)
  | startRecording =>
    rcases startRecording_state s with ⟨m, hm⟩ | ⟨_, r, hr⟩
    · exact Or.inl (by simp [step, hm, sendErrorToUser])
    · exact Or.inl (by simp [step, hr])
  | stopRecording => exact Or.inl (by simp [step, stopRecording_state])
  | elapse dt =>
    obtain ⟨b, hb, _⟩ := elapse_state dt s
    exact Or.inl (by simp [step, hb])
  | webcamSettled r =>
    exact Or.inl (by cases r <;> simp [step, startWebcamResume, sendErrorToUser])
  | permissionSettled r => exact Or.inl (by cases r <;> simp [step, permissionEffect])
  | errorModalEffect =>
    refine Or.inl ?_
    simp only [step, errorModalEffect]
    split <;> rfl
  | tagChange v => exact Or.inl rfl
  | sendErrorToUser m => exact Or.inl rfl
  | uploadVideo => exact Or.inl rfl
  | handleGetWheelID => exact Or.inl rfl
  | handleTrainWheel => exact Or.inl rfl
  | closeModal => exact Or.inl rfl
  | closeErrorModal => exact Or.inl rfl
  | videoMounted => exact Or.inl rfl
  | videoUnmounted => exact Or.inl rfl

theorem run_videoURL (es : List Event) :
    ∀ s : State, (run es s).videoURL.isSome = true →
      s.videoURL.isSome = true ∨ ∃ d, Event.dataavailable d ∈ es ∧ 0 < d.size := by
  induction es with
  | nil =>
    intro s h
    exact Or.inl h
  | cons e es ih =>
    intro s h
    rw [run_cons] at h
    rcases ih _ h with h1 | ⟨d, hd, hpos⟩
    · rcases step_videoURL e s with h2 | ⟨d, hd, hpos⟩
      · exact Or.inl (h2 ▸ h1)
      · exact Or.inr ⟨d, hd ▸ List.mem_cons_self _ _, hpos⟩
    · exact Or.inr ⟨d, List.mem_cons_of_mem _ hd, hpos⟩

theorem step_keeps_urlHasChunk (e : Event) (s : State) (he : ∀ p, e ≠ Event.uploadSettled p)
    (h : urlHasChunk s) : urlHasChunk (step e s) := by
  unfold urlHasChunk at h ⊢
  intro hu
  rcases step_recordedChunks e s he with hc | ⟨d, _, _, hc⟩
  · rw [hc]
    rcases step_videoURL e s with hv | ⟨d, hd, hpos⟩
    · exact h (hv ▸ hu)
    · subst hd
      simp [step, ondataavailable, hpos] at hc
  · rw [hc]
    simp

theorem step_keeps_errorOverTraining (e : Event) (s : State)
    (ha : closeModalBelowError e s = true) (h : errorOverTraining s) :
    errorOverTraining (step e s) := by
  unfold errorOverTraining at h ⊢
  cases e with
  | closeModal =>
    simp only [closeModalBelowError, decide_True, Bool.true_and, Bool.not_eq_true'] at ha
    intro hs
    simp [step, closeModal, ha] at hs
  | errorModalEffect =>
    simp only [step, errorModalEffect]
    split
    · rename_i hc
      intro _
      exact hc.2
    · exact h
  | handleTrainWheel =>
    intro _
    simp [step, handleTrainWheel, startWebcamBegin]
  | closeErrorModal =>
    intro hs
    simp [step, closeErrorModal] at hs
  | startRecording =>
    rcases startRecording_state s with ⟨m, hm⟩ | ⟨_, r, hr⟩
    · simpa [step, hm, sendErrorToUser] using h
    · simpa [step, hr] using h
  | stopRecording => simpa [step, stopRecording_state] using h
  | elapse dt =>
    obtain ⟨b, hb, _⟩ := elapse_state dt s
    simpa [step, hb] using h
  | uploadSettled p => cases p <;> simpa [step, uploadVideoResume, sendErrorToUser] using h
  | webcamSettled r => cases r <;> simpa [step, startWebcamResume, sendErrorToUser] using h
  | permissionSettled r => cases r <;> simpa [step, permissionEffect] using h
  | dataavailable d =>
    simp only [step, ondataavailable]
    split
    · simpa using h
    · exact h
  | tagChange v => simpa [step, tagChange] using h
  | sendErrorToUser m => simpa [step, sendErrorToUser] using h
  | uploadVideo => simpa [step, uploadVideoBegin] using h
  | handleGetWheelID => simpa [step, handleGetWheelID, startWebcamBegin] using h
  | videoMounted => simpa [step, videoMounted] using h
  | videoUnmounted => simpa [step, videoUnmounted] using h

/-! ## Claims -/

/-- C1: when the webcam stream is valid, `startRecording` decides by the tag
alone, in this order: an empty tag gives the error "Please input a tag for this
video." and nothing starts; otherwise a tag starting with neither "ALY" nor "STL"
gives the error 'Tag must start with "ALY" or "STL".' and nothing starts;
otherwise `tagDisabled` and `recording` become true.  In both failing cases
`recording`, `tagDisabled` and `recordedChunks` are as before and no command is
issued to a recorder. -/
theorem startRecording_decides_by_tag (s : State) (hstream : streamValid s = true) :
    (s.tagValue = "" →
      (startRecording s).1.errorMessage = "Please input a tag for this video." ∧
      (startRecording s).1.recording = s.recording ∧
      (startRecording s).1.tagDisabled = s.tagDisabled ∧
      (startRecording s).1.recordedChunks = s.recordedChunks ∧
      (startRecording s).2 = []) ∧
    (s.tagValue ≠ "" → startsWith s.tagValue "ALY" = false →
        startsWith s.tagValue "STL" = false →
      (startRecording s).1.errorMessage = "Tag must start with \"ALY\" or \"STL\"." ∧
      (startRecording s).1.recording = s.recording ∧
      (startRecording s).1.tagDisabled = s.tagDisabled ∧
      (startRecording s).1.recordedChunks = s.recordedChunks ∧
      (startRecording s).2 = []) ∧
    (s.tagValue ≠ "" →
        (startsWith s.tagValue "ALY" = true ∨ startsWith s.tagValue "STL" = true) →
      (startRecording s).1.tagDisabled = true ∧ (startRecording s).1.recording = true) := by
  obtain ⟨ref, url, he, pg, rec, chunks, mr, tag, td, em, sm, sem, tm⟩ := s
  cases ref with
  | none => simp [streamValid] at hstream
  | some v =>
    obtain ⟨src⟩ := v
    cases src with
    | none => simp [streamValid] at hstream
    | some stream =>
      refine ⟨?_, ?_, ?_⟩
      · intro h
        simp only at h
        simp [startRecording, sendErrorToUser, h]
      · intro h ha hs
        simp only at h ha hs
        simp [startRecording, sendErrorToUser, h, ha, hs]
      · intro h hp
        simp only at h hp
        rcases hp with hp | hp <;> simp [startRecording, h, hp]

/-- C1, at the tags of the scenario: "" and "XYZ1" are refused with their
messages, "STL42" starts the recording and locks the tag. -/
theorem startRecording_decides_by_tag_witness :
    (startRecording (readyState "")).1.errorMessage = "Please input a tag for this video." ∧
    (startRecording (readyState "XYZ1")).1.errorMessage
      = "Tag must start with \"ALY\" or \"STL\"." ∧
    (startRecording (readyState "STL42")).1.tagDisabled = true ∧
    (startRecording (readyState "STL42")).1.recording = true :=
  ⟨((startRecording_decides_by_tag (readyState "") (by decide)).1 (by decide)).1,
   ((startRecording_decides_by_tag (readyState "XYZ1") (by decide)).2.1
      (by decide) (by decide) (by decide)).1,
   (startRecording_decides_by_tag (readyState "STL42") (by decide)).2.2
      (by decide) (Or.inr (by decide))⟩

/-- C2: after `uploadVideo`, whether the POST resolved or was rejected, the
chunk sequence is empty (also when other events ran while the POST was in
flight); after a rejected POST the stored error message is exactly "Failed to
upload video.", after a resolved one it is the message held before the call. -/
theorem uploadVideo_clears_chunks (s : State) :
    (∀ post, (uploadVideo post s).1.recordedChunks = []) ∧
    (∀ post t, (uploadVideoResume post t).1.recordedChunks = []) ∧
    (uploadVideo PostOutcome.rejected s).1.errorMessage = "Failed to upload video." ∧
    (uploadVideo PostOutcome.resolved s).1.errorMessage = s.errorMessage := by
  refine ⟨?_, ?_, ?_, ?_⟩
  · intro post
    cases post <;> simp [uploadVideo, uploadVideoResume, uploadVideoBegin, sendErrorToUser]
  · intro post t
    cases post <;> simp [uploadVideoResume, sendErrorToUser]
  · simp [uploadVideo, uploadVideoResume, uploadVideoBegin, sendErrorToUser]
  · simp [uploadVideo, uploadVideoResume, uploadVideoBegin]

/-- C8: `closeErrorModal` and `closeModal` set the stored error message to the
empty string, and from every state, `closeErrorModal` followed by
`handleTrainWheel` with a successful stream acquisition and the effect on
`showModal` and `errorMessage` ends with `showModal = true`, `errorMessage = ""`
and `showErrorModal = false`; the same holds when the effect also runs after
each step and the dialog's `<video>` element is mounted before the stream
arrives. -/
theorem dismissed_error_not_replayed (s : State) (stream : MediaStream) :
    (closeErrorModal s).errorMessage = "" ∧
    (closeModal s).errorMessage = "" ∧
    ((run [Event.closeErrorModal, Event.handleTrainWheel,
           Event.webcamSettled (GetUserMedia.resolved stream),
           Event.errorModalEffect] s).showModal = true ∧
     (run [Event.closeErrorModal, Event.handleTrainWheel,
           Event.webcamSettled (GetUserMedia.resolved stream),
           Event.errorModalEffect] s).errorMessage = "" ∧
     (run [Event.closeErrorModal, Event.handleTrainWheel,
           Event.webcamSettled (GetUserMedia.resolved stream),
           Event.errorModalEffect] s).showErrorModal = false) ∧
    ((run [Event.closeErrorModal, Event.errorModalEffect, Event.handleTrainWheel,
           Event.errorModalEffect, Event.videoMounted,
           Event.webcamSettled (GetUserMedia.resolved stream),
           Event.errorModalEffect] s).showModal = true ∧
     (run [Event.closeErrorModal, Event.errorModalEffect, Event.handleTrainWheel,
           Event.errorModalEffect, Event.videoMounted,
           Event.webcamSettled (GetUserMedia.resolved stream),
           Event.errorModalEffect] s).errorMessage = "" ∧
     (run [Event.closeErrorModal, Event.errorModalEffect, Event.handleTrainWheel,
           Event.errorModalEffect, Event.videoMounted,
           Event.webcamSettled (GetUserMedia.resolved stream),
           Event.errorModalEffect] s).showErrorModal = false) := by
  simp [run, step, closeErrorModal, closeModal, handleTrainWheel, startWebcamBegin,
    startWebcamResume, errorModalEffect, videoMounted]

/-- C10: chunk accumulation is append-only and keeps the order of arrival: after
the data events `ds`, `recordedChunks` is the former sequence followed by exactly
the chunks of `ds` of size greater than 0, in order, and the POST sent by
`uploadVideo` carries as its `video` field the blob made of that sequence, whose
bytes are the chunks' bytes in the same order. -/
theorem chunks_appended_in_arrival_order (s : State) (ds : List Blob) :
    (run (ds.map Event.dataavailable) s).recordedChunks
      = s.recordedChunks ++ ds.filter (fun d => decide (0 < d.size)) ∧
    (uploadVideoBegin (run (ds.map Event.dataavailable) s)).2
      = [Effect.post
          { url := "/api/v2/train",
            formData :=
              [("video", FormValue.file
                  (Blob.ofParts (s.recordedChunks ++ ds.filter (fun d => decide (0 < d.size)))
                    "video/webm") "recorded-video.webm"),
               ("tagValue", FormValue.text s.tagValue)],
            contentType := "multipart/form-data" }] ∧
    (Blob.ofParts (s.recordedChunks ++ ds.filter (fun d => decide (0 < d.size)))
        "video/webm").bytes
      = (s.recordedChunks.map Blob.bytes).flatten
          ++ ((ds.filter (fun d => decide (0 < d.size))).map Blob.bytes).flatten := by
  obtain ⟨h1, h2⟩ := run_dataavailable ds s
  refine ⟨h1, ?_, ?_⟩
  · simp [uploadVideoBegin, uploadRequest, h1, h2]
  · simp [Blob.ofParts]

/-- C9 fails as stated: after a run has been started and stopped, `recording` is
false, yet a further `stopRecording` sends one more stop command to the
recorder. -/
theorem stopRecording_after_stop_commands_recorder :
    (run [Event.startRecording, Event.stopRecording] (readyState "ALY-100")).recording = false ∧
    (stopRecording (run [Event.startRecording, Event.stopRecording] (readyState "ALY-100"))).2
      = [Effect.recorderStop { stream := { id := 1 } }] := by
  decide

/-- C9, amended: `stopRecording` is guarded by the recorder ref, not by the
`recording` flag.  In every state with `recording = false` it returns the same
state; when no recorder was ever created it also issues no command, and when a
recorder exists it issues one stop command to it, whatever `recording` is.  In
its resulting state it is idempotent: twice gives the state that once gives. -/
theorem stopRecording_guarded_by_recorder (s : State) :
    (s.recording = false → (stopRecording s).1 = s) ∧
    (s.mediaRecorderRef = none → stopRecording s = (s, [])) ∧
    (∀ r, s.mediaRecorderRef = some r → (stopRecording s).2 = [Effect.recorderStop r]) ∧
    (stopRecording (stopRecording s).1).1 = (stopRecording s).1 := by
  obtain ⟨ref, url, he, pg, rec, chunks, mr, tag, td, em, sm, sem, tm⟩ := s
  cases mr with
  | none => simp [stopRecording]
  | some r =>
    refine ⟨?_, ?_, ?_, ?_⟩
    · intro h
      simp only at h
      simp [stopRecording, h]
    · intro h
      simp at h
    · intro r' h
      simp only [Option.some.injEq] at h
      simp [stopRecording, h]
    · simp [stopRecording]

/-- C9 amended, at the initial state (no recorder) and at a stopped run (a
recorder exists). -/
theorem stopRecording_guarded_by_recorder_witness :
    stopRecording State.init = (State.init, []) ∧
    (stopRecording (run [Event.startRecording, Event.stopRecording] (readyState "ALY-100"))).1
      = run [Event.startRecording, Event.stopRecording] (readyState "ALY-100") :=
  ⟨(stopRecording_guarded_by_recorder State.init).2.1 rfl,
   (stopRecording_guarded_by_recorder
      (run [Event.startRecording, Event.stopRecording] (readyState "ALY-100"))).1 (by decide)⟩

/-- C3 fails as stated: with the tag "ALY-100", `startRecording` locks the tag,
and after the run is stopped and its chunk delivered, an `uploadVideo` whose
POST is rejected leaves `tagDisabled = false`; every step is one the rendered
markup allows. -/
theorem failed_upload_unlocks_tag :
    (runGuarded uiAllows (openTrace "ALY-100" ++ [Event.startRecording])
        State.init).map (fun s => s.tagDisabled) = some true ∧
    (runGuarded uiAllows
        (openTrace "ALY-100" ++
          [Event.startRecording, Event.stopRecording, Event.dataavailable sampleChunk,
           Event.uploadVideo, Event.uploadSettled PostOutcome.rejected])
        State.init).map (fun s => (s.tagDisabled, s.errorMessage))
      = some (false, "Failed to upload video.") := by
  decide

/-- C3, amended: once the tag is locked, it stays locked through every sequence
of events that does not call `uploadVideo` (among them `stopRecording`, chunk
deliveries, opening and closing the dialogs, the automatic stop); the call of
`uploadVideo` itself sets `tagDisabled = false`, whether its POST then succeeds
or fails. -/
theorem lock_released_only_by_upload (s : State) (es : List Event)
    (hlock : s.tagDisabled = true) (hes : ∀ e ∈ es, e ≠ Event.uploadVideo) :
    (run es s).tagDisabled = true ∧
    (uploadVideoBegin (run es s)).1.tagDisabled = false ∧
    (∀ post, (uploadVideo post (run es s)).1.tagDisabled = false) := by
  refine ⟨?_, rfl, ?_⟩
  · exact run_invariant (fun e => e ≠ Event.uploadVideo) (fun t => t.tagDisabled = true)
      (fun e t he ht => step_keeps_lock e t he ht) es s hes hlock
  · intro post
    cases post <;> simp [uploadVideo, uploadVideoBegin, uploadVideoResume, sendErrorToUser]

/-- C3 amended, for the recording tagged "ALY-100": stopping, a chunk, closing
and reopening the dialog keep the lock; a failed upload then releases it. -/
theorem lock_released_only_by_upload_witness :
    (run [Event.stopRecording, Event.dataavailable sampleChunk, Event.closeModal,
          Event.handleTrainWheel] (startRecording (readyState "ALY-100")).1).tagDisabled = true ∧
    (uploadVideo PostOutcome.rejected
      (run [Event.stopRecording, Event.dataavailable sampleChunk, Event.closeModal,
            Event.handleTrainWheel] (startRecording (readyState "ALY-100")).1)).1.tagDisabled
      = false :=
  ⟨(lock_released_only_by_upload (startRecording (readyState "ALY-100")).1
      [Event.stopRecording, Event.dataavailable sampleChunk, Event.closeModal,
       Event.handleTrainWheel] (by decide) (by decide)).1,
   (lock_released_only_by_upload (startRecording (readyState "ALY-100")).1
      [Event.stopRecording, Event.dataavailable sampleChunk, Event.closeModal,
       Event.handleTrainWheel] (by decide) (by decide)).2.2 PostOutcome.rejected⟩

/-- C4 fails as stated: record once, stop, receive the chunk (the upload button
appears), start a second recording and click the upload button while it runs.
Every step is allowed by the rendered markup; the state reached has
`recording = true` with `tagDisabled = false`, and the re-enabled tag input then
lets the tag be emptied while recording goes on. -/
theorem upload_while_recording_unlocks_tag :
    (runGuarded uiAllows
        (openTrace "ALY-100" ++
          [Event.startRecording, Event.stopRecording, Event.dataavailable sampleChunk,
           Event.startRecording, Event.uploadVideo])
        State.init).map (fun s => (s.recording, s.tagDisabled)) = some (true, false) ∧
    (runGuarded uiAllows
        (openTrace "ALY-100" ++
          [Event.startRecording, Event.stopRecording, Event.dataavailable sampleChunk,
           Event.startRecording, Event.uploadVideo, Event.tagChange ""])
        State.init).map (fun s => (s.recording, s.tagDisabled, s.tagValue))
      = some (true, false, "") := by
  decide

/-- C4, amended: in every state reachable from the initial state by events the
rendered markup allows, with `uploadVideo` not called while `recording` is true,
`recording = true` implies `tagDisabled = true` and a `tagValue` that is
non-empty and starts with "ALY" or "STL". -/
theorem recording_implies_locked_valid_tag (es : List Event) (s : State)
    (hrun : runGuarded uiAllowsUploadIdle es State.init = some s)
    (hrec : s.recording = true) :
    s.tagDisabled = true ∧ s.tagValue ≠ "" ∧
      (startsWith s.tagValue "ALY" = true ∨ startsWith s.tagValue "STL" = true) := by
  have hinv : recordingLocked s :=
    runGuarded_invariant uiAllowsUploadIdle recordingLocked step_keeps_recordingLocked
      es State.init s (by intro h; simp [State.init] at h) hrun
  obtain ⟨h1, h2⟩ := hinv hrec
  simp only [tagValid, ne_eq, Bool.and_eq_true, decide_eq_true_eq, Bool.or_eq_true] at h2
  exact ⟨h1, h2.1, h2.2⟩

/-- C4 amended, on a run that records, stops, uploads while idle and records
again under the tag "STL42". -/
theorem recording_implies_locked_valid_tag_witness :
    (run (openTrace "ALY-100" ++
          [Event.startRecording, Event.stopRecording, Event.dataavailable sampleChunk,
           Event.uploadVideo, Event.uploadSettled PostOutcome.resolved,
           Event.tagChange "STL42", Event.startRecording]) State.init).tagDisabled = true ∧
    (run (openTrace "ALY-100" ++
          [Event.startRecording, Event.stopRecording, Event.dataavailable sampleChunk,
           Event.uploadVideo, Event.uploadSettled PostOutcome.resolved,
           Event.tagChange "STL42", Event.startRecording]) State.init).tagValue ≠ "" ∧
    (startsWith (run (openTrace "ALY-100" ++
          [Event.startRecording, Event.stopRecording, Event.dataavailable sampleChunk,
           Event.uploadVideo, Event.uploadSettled PostOutcome.resolved,
           Event.tagChange "STL42", Event.startRecording]) State.init).tagValue "ALY" = true ∨
     startsWith (run (openTrace "ALY-100" ++
          [Event.startRecording, Event.stopRecording, Event.dataavailable sampleChunk,
           Event.uploadVideo, Event.uploadSettled PostOutcome.resolved,
           Event.tagChange "STL42", Event.startRecording]) State.init).tagValue "STL" = true) :=
  recording_implies_locked_valid_tag
    (openTrace "ALY-100" ++
      [Event.startRecording, Event.stopRecording, Event.dataavailable sampleChunk,
       Event.uploadVideo, Event.uploadSettled PostOutcome.resolved,
       Event.tagChange "STL42", Event.startRecording])
    (run (openTrace "ALY-100" ++
      [Event.startRecording, Event.stopRecording, Event.dataavailable sampleChunk,
       Event.uploadVideo, Event.uploadSettled PostOutcome.resolved,
       Event.tagChange "STL42", Event.startRecording]) State.init)
    (by decide) (by decide)

/-- C6 fails as stated: after a recording was made and uploaded, `recordedChunks`
is empty while `videoURL` is still set, so the upload button is still rendered
(and the markup allows a further `uploadVideo`). -/
theorem upload_still_offered_after_upload :
    (runGuarded uiAllows
        (openTrace "ALY-100" ++
          [Event.startRecording, Event.stopRecording, Event.dataavailable sampleChunk,
           Event.uploadVideo, Event.uploadSettled PostOutcome.resolved])
        State.init).map (fun s => (s.videoURL.isSome, s.recordedChunks)) = some (true, []) ∧
    (runGuarded uiAllows
        (openTrace "ALY-100" ++
          [Event.startRecording, Event.stopRecording, Event.dataavailable sampleChunk,
           Event.uploadVideo, Event.uploadSettled PostOutcome.resolved, Event.uploadVideo])
        State.init).isSome = true := by
  decide

/-- C6, amended: in every state reachable from the initial state by events the
rendered markup allows, the upload button is rendered (`videoURL` is set) only
if a chunk of positive size has been delivered before, and, as long as no upload
has completed, only if `recordedChunks` holds at least one chunk.  Completing an
upload empties `recordedChunks` and leaves `videoURL` as it is, so the button
stays rendered. -/
theorem upload_offered_only_after_a_chunk (es : List Event) (s : State)
    (hrun : runGuarded uiAllows es State.init = some s) (hurl : s.videoURL.isSome = true) :
    (∃ d, Event.dataavailable d ∈ es ∧ 0 < d.size) ∧
    ((∀ p, Event.uploadSettled p ∉ es) → s.recordedChunks ≠ []) ∧
    (∀ p, (uploadVideoResume p s).1.videoURL = s.videoURL ∧
          (uploadVideoResume p s).1.recordedChunks = []) := by
  have hs : s = run es State.init := runGuarded_eq_run uiAllows es State.init s hrun
  refine ⟨?_, ?_, ?_⟩
  · rcases run_videoURL es State.init (hs ▸ hurl) with h | h
    · simp [State.init] at h
    · exact h
  · intro hno
    have hinv : urlHasChunk (run es State.init) :=
      run_invariant (fun e => ∀ p, e ≠ Event.uploadSettled p) urlHasChunk
        step_keeps_urlHasChunk es State.init
        (fun e he p hp => hno p (hp ▸ he))
        (by intro h; simp [State.init] at h)
    rw [hs]
    exact hinv (hs ▸ hurl)
  · intro p
    cases p <;> simp [uploadVideoResume, sendErrorToUser]

/-- C6 amended, on a run that records, stops and receives its chunk. -/
theorem upload_offered_only_after_a_chunk_witness :
    (∃ d, Event.dataavailable d ∈
        openTrace "ALY-100" ++
          [Event.startRecording, Event.stopRecording, Event.dataavailable sampleChunk] ∧
      0 < d.size) ∧
    (run (openTrace "ALY-100" ++
        [Event.startRecording, Event.stopRecording, Event.dataavailable sampleChunk])
      State.init).recordedChunks ≠ [] :=
  ⟨(upload_offered_only_after_a_chunk
      (openTrace "ALY-100" ++
        [Event.startRecording, Event.stopRecording, Event.dataavailable sampleChunk])
      (run (openTrace "ALY-100" ++
        [Event.startRecording, Event.stopRecording, Event.dataavailable sampleChunk])
        State.init)
      (by decide) (by decide)).1,
   (upload_offered_only_after_a_chunk
      (openTrace "ALY-100" ++
        [Event.startRecording, Event.stopRecording, Event.dataavailable sampleChunk])
      (run (openTrace "ALY-100" ++
        [Event.startRecording, Event.stopRecording, Event.dataavailable sampleChunk])
        State.init)
      (by decide) (by decide)).2.1 (by intro p; cases p <;> decide)⟩

/-- C7 fails as stated: open the training dialog, report an error, let the
effect raise the error dialog, then call `closeModal`: the error dialog is still
shown and the training dialog is not. -/
theorem closeModal_leaves_error_dialog_open :
    (run [Event.handleTrainWheel, Event.errorModalEffect,
          Event.sendErrorToUser "Please input a tag for this video.",
          Event.errorModalEffect, Event.closeModal, Event.errorModalEffect]
        State.init).showErrorModal = true ∧
    (run [Event.handleTrainWheel, Event.errorModalEffect,
          Event.sendErrorToUser "Please input a tag for this video.",
          Event.errorModalEffect, Event.closeModal, Event.errorModalEffect]
        State.init).showModal = false := by
  decide

/-- C7, amended: `showErrorModal = true` implies `showModal = true` in every
state reachable from the initial state by any events of the component, among
them `sendErrorToUser`, `handleTrainWheel`, `closeErrorModal` and the effect on
`showModal` and `errorMessage`, provided `closeModal` is called only while the
error dialog is closed; `closeModal` itself leaves `showErrorModal` as it is. -/
theorem error_dialog_only_over_training_dialog (es : List Event) (s : State)
    (hrun : runGuarded closeModalBelowError es State.init = some s)
    (herr : s.showErrorModal = true) :
    s.showModal = true ∧ (closeModal s).showErrorModal = s.showErrorModal := by
  have hinv : errorOverTraining s :=
    runGuarded_invariant closeModalBelowError errorOverTraining step_keeps_errorOverTraining
      es State.init s (by intro h; simp [State.init] at h) hrun
  exact ⟨hinv herr, rfl⟩

/-- C7 amended, on a run that opens the training dialog, reports an error and
runs the effect. -/
theorem error_dialog_only_over_training_dialog_witness :
    (run [Event.handleTrainWheel, Event.sendErrorToUser "Failed to upload video.",
          Event.errorModalEffect] State.init).showModal = true :=
  (error_dialog_only_over_training_dialog
    [Event.handleTrainWheel, Event.sendErrorToUser "Failed to upload video.",
     Event.errorModalEffect]
    (run [Event.handleTrainWheel, Event.sendErrorToUser "Failed to upload video.",
          Event.errorModalEffect] State.init)
    (by decide) (by decide)).1

/-- C5 fails as stated: a recording is started and stopped by hand after 3 s;
its timer is still pending, with 7 s to run.  A second recording started 5 s
after the first is still running just before the first timer's deadline and is
stopped when that timer fires, 5 s into the second run, whose own timer then
still has 5 s to run. -/
theorem manual_stop_does_not_cancel_timer :
    (runGuarded uiAllows
        (openTrace "ALY-100" ++
          [Event.startRecording, Event.elapse 3000, Event.stopRecording])
        State.init).map (fun s => (s.recording, s.timers)) = some (false, [7000]) ∧
    (runGuarded uiAllows
        (openTrace "ALY-100" ++
          [Event.startRecording, Event.elapse 3000, Event.stopRecording, Event.elapse 2000,
           Event.startRecording, Event.elapse 4999])
        State.init).map (fun s => (s.recording, s.timers)) = some (true, [1, 5001]) ∧
    (runGuarded uiAllows
        (openTrace "ALY-100" ++
          [Event.startRecording, Event.elapse 3000, Event.stopRecording, Event.elapse 2000,
           Event.startRecording, Event.elapse 5000])
        State.init).map (fun s => (s.recording, s.timers)) = some (false, [5000]) := by
  decide

/-- C5, amended: each successful `startRecording` registers one automatic stop
with a delay of 10000 ms; with no other timer pending, the recording is still on
at any time before that and off once 10000 ms have passed.  A manual
`stopRecording` does not cancel it: `stopRecording` leaves the pending timers as
they are, so after a manual stop at `dt < 10000` ms the timer is still pending
with `10000 - dt` ms to run, and when it fires it calls `stopRecording` once
more, which sends a further stop command to the recorder and, no new recording
having been started, changes nothing in the state but the consumed timer. -/
theorem automatic_stop_not_cancelled (s : State) (dt : Nat)
    (hstream : streamValid s = true) (htag : tagValid s.tagValue = true)
    (hdt : dt < 10000) :
    (startRecording s).1.recording = true ∧
    (startRecording s).1.timers = s.timers ++ [10000] ∧
    (∀ t : State, (stopRecording t).1.timers = t.timers) ∧
    (s.timers = [] →
      (elapse dt (startRecording s).1).1.recording = true ∧
      (elapse 10000 (startRecording s).1).1.recording = false ∧
      (elapse 10000 (startRecording s).1).1.timers = [] ∧
      (stopRecording (elapse dt (startRecording s).1).1).1.recording = false ∧
      (stopRecording (elapse dt (startRecording s).1).1).1.timers = [10000 - dt] ∧
      (elapse (10000 - dt) (stopRecording (elapse dt (startRecording s).1).1).1).1
        = { (stopRecording (elapse dt (startRecording s).1).1).1 with timers := [] } ∧
      ∃ r, (elapse (10000 - dt) (stopRecording (elapse dt (startRecording s).1).1).1).2
        = [Effect.recorderStop r]) := by
  obtain ⟨stream, hs⟩ := startRecording_ok s hstream htag
  have h1 : ¬ 10000 ≤ dt := by omega
  have h2 : ¬ (10000 - dt < 10000 - dt) := by omega
  refine ⟨by rw [hs], by rw [hs], ?_, ?_⟩
  · intro t
    simp [stopRecording_state]
  · intro ht
    rw [hs]
    simp [elapse, stopRecording, ht, h1, hdt, List.filter_cons]

/-- C5 amended, for the recording tagged "ALY-100" stopped by hand after 3 s:
its timer is still pending with 7 s to run. -/
theorem automatic_stop_not_cancelled_witness :
    (startRecording (readyState "ALY-100")).1.timers = [10000] ∧
    (stopRecording (elapse 3000 (startRecording (readyState "ALY-100")).1).1).1.timers
      = [10000 - 3000] :=
  ⟨(automatic_stop_not_cancelled (readyState "ALY-100") 3000
      (by decide) (by decide) (by decide)).2.1,
   ((automatic_stop_not_cancelled (readyState "ALY-100") 3000
      (by decide) (by decide) (by decide)).2.2.2 (by decide)).2.2.2.2.1⟩

end WheelFix
